import Mathlib

/-!
Verification of stdlib/public/SwiftShims/FoundationShims.h.

The source is a declarations-only C header: layout-compatible mirrors of
Foundation structs, one enum of known NSError keys, two boolean typedefs,
and three extern function prototypes.  We embed the header as a list of
C declarations (an AST), parameterised by the build configuration that
drives its preprocessor conditionals, and prove the claims as facts about
that declaration list.
-/

namespace FoundationShims

/-- Clang nullability annotation on a pointer or object-reference type. -/
inductive Nullability where
  | nonnull
  | nullable
  | unspecified

/-- The C types appearing in FoundationShims.h.  `swift_intptr` is
`__swift_intptr_t` (pointer-width signed integer) and `swift_int8` is
`__swift_int8_t` (8-bit signed integer), both from SwiftStdint.h.
`unretainedId` is an Objective-C object reference carrying the borrowed
(`__unsafe` + `_unretained`) ownership qualifier; `objcId` is a plain one. -/
inductive CType where
  | swift_intptr
  | swift_int8
  | unsignedLong
  | signedChar
  | cBool
  | voidTy
  | objcId (n : Nullability)
  | unretainedId (n : Nullability)
  | ptrTo (pointee : CType) (n : Nullability)
  | arrOf (elem : CType) (size : Nat)
  | structRef (name : String)
  | enumRef (name : String)
  | typedefRef (name : String)

/-- A named struct field. -/
structure CField where
  type : CType
  name : String

/-- A named function parameter. -/
structure CFunParam where
  type : CType
  name : String

/-- A top-level C declaration.  Enumerators carry their explicit value
when the source writes one, and `none` when the value is implicit. -/
inductive CDecl where
  | structDecl (name : String) (fields : List CField)
  | enumDecl (name : String) (underlying : CType)
      (enumerators : List (String × Option Int))
  | typedefDecl (name : String) (target : CType)
  | funDecl (name : String) (ret : CType) (params : List CFunParam)

/-- The preprocessor configuration the header is compiled under:
whether `__OBJC2__` is defined (the enhanced Objective-C runtime) and
whether `__cplusplus` is defined. -/
structure BuildConfig where
  objc2 : Bool
  cplusplus : Bool

/-- Lines 36-39: `_SwiftNSRange`, two pointer-width integer fields. -/
def swiftNSRangeDecl : CDecl :=
  .structDecl "_SwiftNSRange"
    [⟨.swift_intptr, "location"⟩, ⟨.swift_intptr, "length"⟩]

/-- Lines 42-47: `_SwiftNSFastEnumerationState`: an unsigned long state
word, a nullable pointer to an array of borrowed object references with
nullable elements, a nullable pointer to an unsigned long mutation guard,
and a 5-element unsigned long reserved array. -/
def fastEnumerationStateDecl : CDecl :=
  .structDecl "_SwiftNSFastEnumerationState"
    [⟨.unsignedLong, "state"⟩,
     ⟨.ptrTo (.unretainedId .nullable) .nullable, "itemsPtr"⟩,
     ⟨.ptrTo .unsignedLong .nullable, "mutationsPtr"⟩,
     ⟨.arrOf .unsignedLong 5, "extra"⟩]

/-- Lines 51-55: `_SwiftNSOperatingSystemVersion`, three pointer-width
integer fields. -/
def operatingSystemVersionStructDecl : CDecl :=
  .structDecl "_SwiftNSOperatingSystemVersion"
    [⟨.swift_intptr, "majorVersion"⟩,
     ⟨.swift_intptr, "minorVersion"⟩,
     ⟨.swift_intptr, "patchVersion"⟩]

/-- Lines 57-58: the `_swift_stdlib_operatingSystemVersion` prototype:
no parameters, returns the OS-version struct by value. -/
def operatingSystemVersionFunDecl : CDecl :=
  .funDecl "_swift_stdlib_operatingSystemVersion"
    (.structRef "_SwiftNSOperatingSystemVersion") []

/-- Lines 64-71: the `_SwiftKnownNSErrorKey` enum over `__swift_int8_t`.
Only the first enumerator has an explicit value (= 0); the rest are
implicit, so C assigns consecutive successors. -/
def knownNSErrorKeyEnumDecl : CDecl :=
  .enumDecl "_SwiftKnownNSErrorKey" .swift_int8
    [("_SwiftKnownNSErrorKeyLocalizedDescription", some 0),
     ("_SwiftKnownNSErrorKeyLocalizedFailureReason", none),
     ("_SwiftKnownNSErrorKeyLocalizedRecoverySuggestion", none),
     ("_SwiftKnownNSErrorKeyHelpAnchor", none),
     ("_SwiftKnownNSErrorKeyLocalizedRecoveryOptions", none),
     ("_SwiftKnownNSErrorKeyRecoveryAttempter", none)]

/-- Lines 73-74: the `_swift_stdlib_nserror_key` prototype:
takes one `_SwiftKnownNSErrorKey`, returns `id` annotated `_Nonnull`. -/
def nserrorKeyFunDecl : CDecl :=
  .funDecl "_swift_stdlib_nserror_key" (.objcId .nonnull)
    [⟨.enumRef "_SwiftKnownNSErrorKey", "key"⟩]

/-- Line 79: `typedef signed char _SwiftObjCBool;`. -/
def objcBoolTypedefDecl : CDecl :=
  .typedefDecl "_SwiftObjCBool" .signedChar

/-- Lines 81-85: `_SwiftCBool` is `bool` under `__cplusplus` and `_Bool`
otherwise; both preprocessor branches name the language-native boolean
type, embedded here as `cBool`. -/
def cBoolTypedefDecl : CDecl :=
  .typedefDecl "_SwiftCBool" .cBool

/-- Lines 87-92: the `_swift_stdlib_perform_error_recovery_selector`
prototype: nullable `id` delegate, nonnull `void *` selector,
`_SwiftCBool` success flag, nullable `void *` context; returns `void`. -/
def performErrorRecoveryFunDecl : CDecl :=
  .funDecl "_swift_stdlib_perform_error_recovery_selector" .voidTy
    [⟨.objcId .nullable, "delegate"⟩,
     ⟨.ptrTo .voidTy .nonnull, "selector"⟩,
     ⟨.typedefRef "_SwiftCBool", "success"⟩,
     ⟨.ptrTo .voidTy .nullable, "contextInfo"⟩]

/-- The declarations FoundationShims.h contributes to a translation unit,
in source order.  The fast-enumeration-state struct (lines 41-48) is
guarded by `#ifdef` on `__OBJC2__` and appears only when that macro is
defined. -/
def headerDecls (cfg : BuildConfig) : List CDecl :=
  [swiftNSRangeDecl]
    ++ (if cfg.objc2 then [fastEnumerationStateDecl] else [])
    ++ [operatingSystemVersionStructDecl,
        operatingSystemVersionFunDecl,
        knownNSErrorKeyEnumDecl,
        nserrorKeyFunDecl,
        objcBoolTypedefDecl,
        cBoolTypedefDecl,
        performErrorRecoveryFunDecl]

/-- C enumerator value assignment: an enumerator with an explicit value
takes it; one without takes the successor of the previous value (the
first implicit one, with no predecessor, takes the running counter,
which starts at 0). -/
def assignEnumValues : List (String × Option Int) → Int → List (String × Int)
  | [], _ => []
  | (n, some v) :: rest, _ => (n, v) :: assignEnumValues rest (v + 1)
  | (n, none) :: rest, next => (n, next) :: assignEnumValues rest (next + 1)

/-- The enumerator names and assigned ordinal values of an enum decl. -/
def enumAssignedValues : CDecl → List (String × Int)
  | .enumDecl _ _ es => assignEnumValues es 0
  | _ => []

/-- Whether a declaration is a function prototype. -/
def isFunDecl : CDecl → Bool
  | .funDecl _ _ _ => true
  | _ => false

/-- Whether a declaration introduces a mirrored type (a struct or enum
definition, as opposed to a typedef alias or a function prototype). -/
def isMirrorTypeDecl : CDecl → Bool
  | .structDecl _ _ => true
  | .enumDecl _ _ _ => true
  | _ => false

/-- Number of function prototypes in a declaration list. -/
def countFunDecls (ds : List CDecl) : Nat :=
  (ds.filter isFunDecl).length

/-- Number of mirrored type declarations in a declaration list. -/
def countMirrorTypeDecls (ds : List CDecl) : Nat :=
  (ds.filter isMirrorTypeDecl).length

/-- Look up a function prototype by name: its return type and parameters. -/
def findFun (ds : List CDecl) (fn : String) : Option (CType × List CFunParam) :=
  ds.findSome? fun d =>
    match d with
    | .funDecl n r ps => if n = fn then some (r, ps) else none
    | _ => none

/-- Look up a struct declaration by name: its field list. -/
def findStruct (ds : List CDecl) (sn : String) : Option (List CField) :=
  ds.findSome? fun d =>
    match d with
    | .structDecl n fs => if n = sn then some fs else none
    | _ => none

/-- Look up an enum declaration by name: its underlying type and
enumerator list. -/
def findEnum (ds : List CDecl) (en : String) :
    Option (CType × List (String × Option Int)) :=
  ds.findSome? fun d =>
    match d with
    | .enumDecl n u es => if n = en then some (u, es) else none
    | _ => none

/-- Resolve a typedef name to its target type. -/
def resolveTypedef (ds : List CDecl) (tn : String) : Option CType :=
  ds.findSome? fun d =>
    match d with
    | .typedefDecl n t => if n = tn then some t else none
    | _ => none

/-- The nullability annotation carried by a type, when it is a pointer
or object-reference type. -/
def typeNullability : CType → Option Nullability
  | .objcId n => some n
  | .unretainedId n => some n
  | .ptrTo _ n => some n
  | _ => none

/-- Modelled from the spec: bit widths of the fixed-width shim integer
types.  SwiftStdint.h, which defines `__swift_int8_t`, is not part of
this source tree; the spec describes the enum's underlying type as a
narrow small-width integer and the type name fixes it at 8 bits.
`signed char` is 8 bits on every platform Swift supports. -/
def widthBits : CType → Option Nat
  | .swift_int8 => some 8
  | .signedChar => some 8
  | _ => none

/-- Modelled from the spec: `__swift_intptr_t` (defined in SwiftStdint.h,
not part of this source tree) is the platform-native pointer-width
integer type the spec calls a native-width integer. -/
def isNativeWidthInt : CType → Bool
  | .swift_intptr => true
  | _ => false

/-- Whether a type is a signed character type. -/
def isSignedCharType : CType → Bool
  | .signedChar => true
  | _ => false

/-- Whether a type is the language-native boolean type. -/
def isNativeBoolType : CType → Bool
  | .cBool => true
  | _ => false

/-- The state of a translation unit as seen by this header: whether the
include guard macro SWIFT_STDLIB_SHIMS_FOUNDATIONSHIMS_H is already
defined, and the declarations emitted so far. -/
structure TUState where
  guardDefined : Bool
  decls : List CDecl

/-- Processing one `#include` of FoundationShims.h (lines 19-20 and 98):
if the guard macro is defined the whole body is skipped; otherwise the
macro is defined and the declarations are emitted. -/
def includeFoundationShims (cfg : BuildConfig) (s : TUState) : TUState :=
  if s.guardDefined then s
  else ⟨true, s.decls ++ headerDecls cfg⟩

/-- Whether a declaration is a typedef alias. -/
def isTypedefDecl : CDecl → Bool
  | .typedefDecl _ _ => true
  | _ => false

/-- Including the header a second time changes nothing: the first pass
leaves the guard macro defined, and a pass with the guard defined skips
the whole body. -/
theorem includeFoundationShims_idem (cfg : BuildConfig) (s : TUState) :
    includeFoundationShims cfg (includeFoundationShims cfg s) =
      includeFoundationShims cfg s := by
  unfold includeFoundationShims
  by_cases h : s.guardDefined <;> simp [h]

/-- Claim C1: the known-error-key enum `_SwiftKnownNSErrorKey` has
underlying type `__swift_int8_t` (8 bits wide), and its six tags receive
the consecutive ordinals 0..5 in the fixed source order, starting with
LocalizedDescription = 0, so every tag value t satisfies 0 ≤ t ≤ 5. -/
theorem known_error_key_enum_six_consecutive_tags (cfg : BuildConfig) :
    findEnum (headerDecls cfg) "_SwiftKnownNSErrorKey" =
      some (CType.swift_int8,
        [("_SwiftKnownNSErrorKeyLocalizedDescription", some 0),
         ("_SwiftKnownNSErrorKeyLocalizedFailureReason", none),
         ("_SwiftKnownNSErrorKeyLocalizedRecoverySuggestion", none),
         ("_SwiftKnownNSErrorKeyHelpAnchor", none),
         ("_SwiftKnownNSErrorKeyLocalizedRecoveryOptions", none),
         ("_SwiftKnownNSErrorKeyRecoveryAttempter", none)]) ∧
    widthBits CType.swift_int8 = some 8 ∧
    enumAssignedValues knownNSErrorKeyEnumDecl =
      [("_SwiftKnownNSErrorKeyLocalizedDescription", 0),
       ("_SwiftKnownNSErrorKeyLocalizedFailureReason", 1),
       ("_SwiftKnownNSErrorKeyLocalizedRecoverySuggestion", 2),
       ("_SwiftKnownNSErrorKeyHelpAnchor", 3),
       ("_SwiftKnownNSErrorKeyLocalizedRecoveryOptions", 4),
       ("_SwiftKnownNSErrorKeyRecoveryAttempter", 5)] ∧
    ∀ p ∈ enumAssignedValues knownNSErrorKeyEnumDecl, 0 ≤ p.2 ∧ p.2 ≤ 5 := by
  cases cfg with
  | mk o c => cases o <;> cases c <;> exact ⟨rfl, rfl, rfl, by decide⟩

/-- Instantiation of the C1 theorem at a concrete build configuration. -/
theorem known_error_key_enum_six_consecutive_tags_witness :
    findEnum (headerDecls ⟨true, false⟩) "_SwiftKnownNSErrorKey" =
      some (CType.swift_int8,
        [("_SwiftKnownNSErrorKeyLocalizedDescription", some 0),
         ("_SwiftKnownNSErrorKeyLocalizedFailureReason", none),
         ("_SwiftKnownNSErrorKeyLocalizedRecoverySuggestion", none),
         ("_SwiftKnownNSErrorKeyHelpAnchor", none),
         ("_SwiftKnownNSErrorKeyLocalizedRecoveryOptions", none),
         ("_SwiftKnownNSErrorKeyRecoveryAttempter", none)]) ∧
    widthBits CType.swift_int8 = some 8 ∧
    enumAssignedValues knownNSErrorKeyEnumDecl =
      [("_SwiftKnownNSErrorKeyLocalizedDescription", 0),
       ("_SwiftKnownNSErrorKeyLocalizedFailureReason", 1),
       ("_SwiftKnownNSErrorKeyLocalizedRecoverySuggestion", 2),
       ("_SwiftKnownNSErrorKeyHelpAnchor", 3),
       ("_SwiftKnownNSErrorKeyLocalizedRecoveryOptions", 4),
       ("_SwiftKnownNSErrorKeyRecoveryAttempter", 5)] ∧
    ∀ p ∈ enumAssignedValues knownNSErrorKeyEnumDecl, 0 ≤ p.2 ∧ p.2 ≤ 5 :=
  known_error_key_enum_six_consecutive_tags ⟨true, false⟩

/-- Claim C2 counterexample: the header does not declare four function
prototypes; at a concrete build configuration (enhanced runtime on,
C mode) the count of prototypes is 3, not 4. -/
theorem header_not_four_prototypes :
    ¬ countFunDecls (headerDecls ⟨true, false⟩) = 4 := by
  decide

/-- Claim C2 (amended): the file declares exactly three external
entry-point function prototypes, in addition to its mirrored type
declarations (four of those when the enhanced object runtime macro is
defined, three otherwise, since the enumeration-state mirror is
conditional). -/
theorem header_three_prototypes (cfg : BuildConfig) :
    countFunDecls (headerDecls cfg) = 3 ∧
    countMirrorTypeDecls (headerDecls cfg) = (if cfg.objc2 then 4 else 3) := by
  cases cfg with
  | mk o c => cases o <;> cases c <;> exact ⟨rfl, rfl⟩

/-- Instantiation of the amended C2 theorem at a concrete configuration. -/
theorem header_three_prototypes_witness :
    countFunDecls (headerDecls ⟨true, false⟩) = 3 ∧
    countMirrorTypeDecls (headerDecls ⟨true, false⟩) =
      (if (true : Bool) then 4 else 3) :=
  header_three_prototypes ⟨true, false⟩

/-- Claim C3: `_swift_stdlib_nserror_key` takes one argument of the
closed six-tag enum type and its declared return is an object reference
annotated nonnull — never null/absent — so for each of the six valid
tags the declared result is non-null; arguments outside the six tags are
outside the parameter contract (the enum values are exactly 0..5). -/
theorem nserror_key_returns_nonnull (cfg : BuildConfig) :
    findFun (headerDecls cfg) "_swift_stdlib_nserror_key" =
      some (CType.objcId .nonnull,
        [⟨CType.enumRef "_SwiftKnownNSErrorKey", "key"⟩]) ∧
    typeNullability (CType.objcId .nonnull) = some .nonnull ∧
    (enumAssignedValues knownNSErrorKeyEnumDecl).length = 6 ∧
    (enumAssignedValues knownNSErrorKeyEnumDecl).map Prod.snd =
      [0, 1, 2, 3, 4, 5] := by
  cases cfg with
  | mk o c => cases o <;> cases c <;> exact ⟨rfl, rfl, rfl, rfl⟩

/-- Instantiation of the C3 theorem at a concrete configuration. -/
theorem nserror_key_returns_nonnull_witness :
    findFun (headerDecls ⟨true, false⟩) "_swift_stdlib_nserror_key" =
      some (CType.objcId .nonnull,
        [⟨CType.enumRef "_SwiftKnownNSErrorKey", "key"⟩]) ∧
    typeNullability (CType.objcId .nonnull) = some .nonnull ∧
    (enumAssignedValues knownNSErrorKeyEnumDecl).length = 6 ∧
    (enumAssignedValues knownNSErrorKeyEnumDecl).map Prod.snd =
      [0, 1, 2, 3, 4, 5] :=
  nserror_key_returns_nonnull ⟨true, false⟩

/-- Claim C4: `_swift_stdlib_perform_error_recovery_selector` marks the
delegate and contextInfo parameters nullable, marks the selector
parameter nonnull, returns void, and declares no further parameter that
could serve as an error channel. -/
theorem perform_error_recovery_signature (cfg : BuildConfig) :
    findFun (headerDecls cfg)
        "_swift_stdlib_perform_error_recovery_selector" =
      some (CType.voidTy,
        [⟨CType.objcId .nullable, "delegate"⟩,
         ⟨CType.ptrTo .voidTy .nonnull, "selector"⟩,
         ⟨CType.typedefRef "_SwiftCBool", "success"⟩,
         ⟨CType.ptrTo .voidTy .nullable, "contextInfo"⟩]) ∧
    typeNullability (CType.objcId .nullable) = some .nullable ∧
    typeNullability (CType.ptrTo .voidTy .nonnull) = some .nonnull ∧
    typeNullability (CType.ptrTo .voidTy .nullable) = some .nullable := by
  cases cfg with
  | mk o c => cases o <;> cases c <;> exact ⟨rfl, rfl, rfl, rfl⟩

/-- Instantiation of the C4 theorem at a concrete configuration. -/
theorem perform_error_recovery_signature_witness :
    findFun (headerDecls ⟨true, false⟩)
        "_swift_stdlib_perform_error_recovery_selector" =
      some (CType.voidTy,
        [⟨CType.objcId .nullable, "delegate"⟩,
         ⟨CType.ptrTo .voidTy .nonnull, "selector"⟩,
         ⟨CType.typedefRef "_SwiftCBool", "success"⟩,
         ⟨CType.ptrTo .voidTy .nullable, "contextInfo"⟩]) ∧
    typeNullability (CType.objcId .nullable) = some .nullable ∧
    typeNullability (CType.ptrTo .voidTy .nonnull) = some .nonnull ∧
    typeNullability (CType.ptrTo .voidTy .nullable) = some .nullable :=
  perform_error_recovery_signature ⟨true, false⟩

/-- Claim C5: `_SwiftNSRange` has exactly two fields, in the order
location then length, both of the platform-native pointer-width integer
type. -/
theorem nsrange_two_native_width_fields (cfg : BuildConfig) :
    findStruct (headerDecls cfg) "_SwiftNSRange" =
      some [⟨CType.swift_intptr, "location"⟩,
            ⟨CType.swift_intptr, "length"⟩] ∧
    [⟨CType.swift_intptr, "location"⟩,
     (⟨CType.swift_intptr, "length"⟩ : CField)].all
      (fun f => isNativeWidthInt f.type) = true := by
  cases cfg with
  | mk o c => cases o <;> cases c <;> exact ⟨rfl, rfl⟩

/-- Instantiation of the C5 theorem at a concrete configuration. -/
theorem nsrange_two_native_width_fields_witness :
    findStruct (headerDecls ⟨true, false⟩) "_SwiftNSRange" =
      some [⟨CType.swift_intptr, "location"⟩,
            ⟨CType.swift_intptr, "length"⟩] ∧
    [⟨CType.swift_intptr, "location"⟩,
     (⟨CType.swift_intptr, "length"⟩ : CField)].all
      (fun f => isNativeWidthInt f.type) = true :=
  nsrange_two_native_width_fields ⟨true, false⟩

/-- Claim C6: `_SwiftNSOperatingSystemVersion` has exactly three fields,
in the order majorVersion, minorVersion, patchVersion, all of the
platform-native pointer-width integer type. -/
theorem os_version_three_native_width_fields (cfg : BuildConfig) :
    findStruct (headerDecls cfg) "_SwiftNSOperatingSystemVersion" =
      some [⟨CType.swift_intptr, "majorVersion"⟩,
            ⟨CType.swift_intptr, "minorVersion"⟩,
            ⟨CType.swift_intptr, "patchVersion"⟩] ∧
    [⟨CType.swift_intptr, "majorVersion"⟩,
     ⟨CType.swift_intptr, "minorVersion"⟩,
     (⟨CType.swift_intptr, "patchVersion"⟩ : CField)].all
      (fun f => isNativeWidthInt f.type) = true := by
  cases cfg with
  | mk o c => cases o <;> cases c <;> exact ⟨rfl, rfl⟩

/-- Instantiation of the C6 theorem at a concrete configuration. -/
theorem os_version_three_native_width_fields_witness :
    findStruct (headerDecls ⟨true, false⟩) "_SwiftNSOperatingSystemVersion" =
      some [⟨CType.swift_intptr, "majorVersion"⟩,
            ⟨CType.swift_intptr, "minorVersion"⟩,
            ⟨CType.swift_intptr, "patchVersion"⟩] ∧
    [⟨CType.swift_intptr, "majorVersion"⟩,
     ⟨CType.swift_intptr, "minorVersion"⟩,
     (⟨CType.swift_intptr, "patchVersion"⟩ : CField)].all
      (fun f => isNativeWidthInt f.type) = true :=
  os_version_three_native_width_fields ⟨true, false⟩

/-- Claim C7: `_SwiftNSFastEnumerationState` is declared exactly when
the enhanced Objective-C runtime macro is defined, and then consists, in
order, of an unsigned long state word, a nullable pointer to borrowed
object references with nullable elements, a nullable pointer to an
unsigned long mutation guard, and a 5-element unsigned long reserved
array. -/
theorem fast_enumeration_state_layout (cfg : BuildConfig) :
    findStruct (headerDecls cfg) "_SwiftNSFastEnumerationState" =
      (if cfg.objc2 then
        some [⟨CType.unsignedLong, "state"⟩,
              ⟨CType.ptrTo (.unretainedId .nullable) .nullable, "itemsPtr"⟩,
              ⟨CType.ptrTo .unsignedLong .nullable, "mutationsPtr"⟩,
              ⟨CType.arrOf .unsignedLong 5, "extra"⟩]
       else none) ∧
    typeNullability (CType.ptrTo (.unretainedId .nullable) .nullable) =
      some .nullable ∧
    typeNullability (CType.unretainedId .nullable) = some .nullable ∧
    typeNullability (CType.ptrTo .unsignedLong .nullable) = some .nullable := by
  cases cfg with
  | mk o c => cases o <;> cases c <;> exact ⟨rfl, rfl, rfl, rfl⟩

/-- Instantiation of the C7 theorem at concrete configurations, with
the enhanced runtime both present and absent. -/
theorem fast_enumeration_state_layout_witness :
    (findStruct (headerDecls ⟨true, false⟩) "_SwiftNSFastEnumerationState" =
      (if (true : Bool) then
        some [⟨CType.unsignedLong, "state"⟩,
              ⟨CType.ptrTo (.unretainedId .nullable) .nullable, "itemsPtr"⟩,
              ⟨CType.ptrTo .unsignedLong .nullable, "mutationsPtr"⟩,
              ⟨CType.arrOf .unsignedLong 5, "extra"⟩]
       else none) ∧
    typeNullability (CType.ptrTo (.unretainedId .nullable) .nullable) =
      some .nullable ∧
    typeNullability (CType.unretainedId .nullable) = some .nullable ∧
    typeNullability (CType.ptrTo .unsignedLong .nullable) = some .nullable) :=
  fast_enumeration_state_layout ⟨true, false⟩

/-- Claim C8: `_swift_stdlib_operatingSystemVersion` takes no parameters
and returns the OS-version struct directly by value: the return type is
the struct itself, carrying no nullability (not a pointer, not optional),
and there is no out-parameter. -/
theorem operating_system_version_signature (cfg : BuildConfig) :
    findFun (headerDecls cfg) "_swift_stdlib_operatingSystemVersion" =
      some (CType.structRef "_SwiftNSOperatingSystemVersion", []) ∧
    typeNullability (CType.structRef "_SwiftNSOperatingSystemVersion") =
      none := by
  cases cfg with
  | mk o c => cases o <;> cases c <;> exact ⟨rfl, rfl⟩

/-- Instantiation of the C8 theorem at a concrete configuration. -/
theorem operating_system_version_signature_witness :
    findFun (headerDecls ⟨true, false⟩) "_swift_stdlib_operatingSystemVersion" =
      some (CType.structRef "_SwiftNSOperatingSystemVersion", []) ∧
    typeNullability (CType.structRef "_SwiftNSOperatingSystemVersion") =
      none :=
  operating_system_version_signature ⟨true, false⟩

/-- Claim C9: inclusion of the header is idempotent: thanks to the
include guard, processing the include any positive number of times
yields the same translation-unit state as processing it once. -/
theorem include_idempotent (cfg : BuildConfig) (s : TUState) (n : Nat)
    (h : 1 ≤ n) :
    (includeFoundationShims cfg)^[n] s = includeFoundationShims cfg s := by
  induction n with
  | zero => omega
  | succ k ih =>
    rcases Nat.eq_or_lt_of_le h with h1 | h1
    · simp [← h1]
    · have hk : 1 ≤ k := by omega
      rw [Function.iterate_succ_apply', ih hk, includeFoundationShims_idem]

/-- Instantiation of the C9 theorem: three inclusions at a concrete
configuration and an initially guard-free translation unit equal one. -/
theorem include_idempotent_witness :
    1 ≤ 3 ∧
    (includeFoundationShims ⟨true, false⟩)^[3] ⟨false, []⟩ =
      includeFoundationShims ⟨true, false⟩ ⟨false, []⟩ :=
  ⟨by decide, include_idempotent ⟨true, false⟩ ⟨false, []⟩ 3 (by decide)⟩

/-- Claim C10: besides the four mirror types the header declares exactly
two boolean typedefs: `_SwiftObjCBool` resolves to signed char (a signed
8-bit character type) and `_SwiftCBool` to the language-native bool;
the two representations differ, and the success parameter of the
error-recovery entry point is declared with `_SwiftCBool`, hence
resolves to the native bool, not to signed char. -/
theorem bool_typedefs_and_success_flag (cfg : BuildConfig) :
    (headerDecls cfg).filter isTypedefDecl =
      [objcBoolTypedefDecl, cBoolTypedefDecl] ∧
    resolveTypedef (headerDecls cfg) "_SwiftObjCBool" =
      some CType.signedChar ∧
    isSignedCharType CType.signedChar = true ∧
    widthBits CType.signedChar = some 8 ∧
    resolveTypedef (headerDecls cfg) "_SwiftCBool" = some CType.cBool ∧
    isNativeBoolType CType.cBool = true ∧
    CType.cBool ≠ CType.signedChar ∧
    (findFun (headerDecls cfg)
        "_swift_stdlib_perform_error_recovery_selector").map
      (fun sg => sg.2.map CFunParam.type) =
      some [CType.objcId .nullable, CType.ptrTo .voidTy .nonnull,
            CType.typedefRef "_SwiftCBool", CType.ptrTo .voidTy .nullable] := by
  cases cfg with
  | mk o c =>
    cases o <;> cases c <;>
      exact ⟨rfl, rfl, rfl, rfl, rfl, rfl, fun h => CType.noConfusion h, rfl⟩

/-- Instantiation of the C10 theorem at a concrete configuration. -/
theorem bool_typedefs_and_success_flag_witness :
    (headerDecls ⟨true, false⟩).filter isTypedefDecl =
      [objcBoolTypedefDecl, cBoolTypedefDecl] ∧
    resolveTypedef (headerDecls ⟨true, false⟩) "_SwiftObjCBool" =
      some CType.signedChar ∧
    isSignedCharType CType.signedChar = true ∧
    widthBits CType.signedChar = some 8 ∧
    resolveTypedef (headerDecls ⟨true, false⟩) "_SwiftCBool" =
      some CType.cBool ∧
    isNativeBoolType CType.cBool = true ∧
    CType.cBool ≠ CType.signedChar ∧
    (findFun (headerDecls ⟨true, false⟩)
        "_swift_stdlib_perform_error_recovery_selector").map
      (fun sg => sg.2.map CFunParam.type) =
      some [CType.objcId .nullable, CType.ptrTo .voidTy .nonnull,
            CType.typedefRef "_SwiftCBool", CType.ptrTo .voidTy .nullable] :=
  bool_typedefs_and_success_flag ⟨true, false⟩

end FoundationShims
